import Mathlib

/-!
# BlurSession: the inactivity monitor of src/js/blursession.js

A shallow embedding of the class `BlurSession`.  The object, the part of the
document it touches and the browser facilities it uses (timers, listeners,
console, callbacks) are one explicit state, `World`, and every method is a
function on that state.

Modelling conventions:

* `Date.now()` is a parameter `now : Int` (milliseconds); one handler run reads
  one clock value.
* JavaScript numbers are `JSNum`: NaN, the two infinities, or a rational.  The
  doubles are among the rationals; the product rounds to the nearest double,
  ties to even, and overflows to an infinity, as IEEE 754 binary64 does.  The
  sign of zero is not kept.
* A method that can throw returns `Except JSError World`; the error carries the
  state reached when the exception was raised, since the writes made before it
  stay.  `settle` gives the state a listener or timer callback leaves behind,
  whether it returned or threw.
* The callbacks `onActivate` and `onDeactivate` are recorded in `Host.calls`
  when they are invoked; they are taken to return normally and not to call
  back into the session.
* A one-shot timer fires at its due time `now + delay`.
-/

namespace BlurSession

/-! ## JavaScript numbers -/

/-- A JavaScript number: NaN, an infinity, or a rational. -/
inductive JSNum where
  | nan
  | negInf
  | fin (q : ℚ)
  | posInf
  deriving DecidableEq

namespace JSNum

/-- The global function isNaN on a number. -/
def isNaN : JSNum → Bool
  | nan => true
  | _ => false

/-- Truthiness of a number: everything but 0 and NaN. -/
def truthy : JSNum → Bool
  | nan => false
  | fin q => q != 0
  | _ => true

/-- The relational operator a <= b (false as soon as one side is NaN). -/
def le : JSNum → JSNum → Bool
  | nan, _ => false
  | _, nan => false
  | negInf, _ => true
  | _, posInf => true
  | fin a, fin b => a ≤ b
  | fin _, negInf => false
  | posInf, _ => false

/-- The relational operator a >= b. -/
def ge (a b : JSNum) : Bool := le b a

/-- The relational operator a < b (false as soon as one side is NaN). -/
def lt : JSNum → JSNum → Bool
  | nan, _ => false
  | _, nan => false
  | _, negInf => false
  | posInf, _ => false
  | negInf, _ => true
  | fin a, fin b => a < b
  | fin _, posInf => true

/-- The relational operator a > b. -/
def gt (a b : JSNum) : Bool := lt b a

/-- Math.max of two numbers: NaN if either is NaN. -/
def max : JSNum → JSNum → JSNum
  | nan, _ => nan
  | _, nan => nan
  | posInf, _ => posInf
  | _, posInf => posInf
  | negInf, b => b
  | a, negInf => a
  | fin a, fin b => fin (if a ≤ b then b else a)

/-- Math.min of two numbers: NaN if either is NaN. -/
def min : JSNum → JSNum → JSNum
  | nan, _ => nan
  | _, nan => nan
  | negInf, _ => negInf
  | _, negInf => negInf
  | posInf, b => b
  | a, posInf => a
  | fin a, fin b => fin (if a ≤ b then a else b)

/-- Rounding of a rational to the nearest integer, a tie going to the even
one. -/
def roundHalfEven (x : ℚ) : ℤ :=
  if x - ⌊x⌋ < 1 / 2 then ⌊x⌋
  else if 1 / 2 < x - ⌊x⌋ then ⌊x⌋ + 1
  else if ⌊x⌋ % 2 = 0 then ⌊x⌋
  else ⌊x⌋ + 1

/-- The spacing of the doubles around `q`: 2 ^ (e - 52), where e is the binary
exponent of `q`, not below -1022 (the subnormal range). -/
def ulp (q : ℚ) : ℚ :=
  (2 : ℚ) ^ (Max.max (Int.log 2 |q|) (-1022) - 52)

/-- The double nearest to the rational `q`, ties to even; an infinity when the
rounded value reaches 2 ^ 1024 in size. -/
def roundDouble (q : ℚ) : JSNum :=
  if (2 : ℚ) ^ (1024 : ℕ) ≤ (roundHalfEven (q / ulp q) : ℚ) * ulp q then posInf
  else if (roundHalfEven (q / ulp q) : ℚ) * ulp q ≤ -(2 : ℚ) ^ (1024 : ℕ) then negInf
  else fin ((roundHalfEven (q / ulp q) : ℚ) * ulp q)

/-- The product of an infinity (positive or not) with a finite factor. -/
def infTimes (positive : Bool) (q : ℚ) : JSNum :=
  if q = 0 then nan
  else if decide (0 < q) = positive then posInf else negInf

/-- The operator a * b on doubles. -/
def mul : JSNum → JSNum → JSNum
  | nan, _ => nan
  | _, nan => nan
  | fin a, fin b => roundDouble (a * b)
  | posInf, fin b => infTimes true b
  | negInf, fin b => infTimes false b
  | fin a, posInf => infTimes true a
  | fin a, negInf => infTimes false a
  | posInf, posInf => posInf
  | negInf, negInf => posInf
  | posInf, negInf => negInf
  | negInf, posInf => negInf

end JSNum

/-! ## State -/

/-- The field `config` built by the constructor. -/
structure Config where
  inactivityTime : JSNum
  sensitiveSelector : String
  overlaySelector : String
  blurIntensity : JSNum
  statusMessageSelector : String
  /-- Truthiness of the option value. -/
  showStatusBanner : Bool
  /-- Whether `typeof config.onActivate` is a function. -/
  onActivate : Bool
  /-- Whether `typeof config.onDeactivate` is a function. -/
  onDeactivate : Bool
  debug : Bool
  deriving DecidableEq

/-- The fields of a `BlurSession` object.  A DOM element is named by a number;
`none` is null, or undefined for `inactivityInterval`. -/
structure Session where
  config : Config
  inactivityTimer : Option Nat
  isBlurActive : Bool
  lastActivity : Int
  isInitialized : Bool
  sensitiveArea : Option Nat
  overlay : Option Nat
  statusMessage : Option Nat
  inactivityInterval : Option Nat
  deriving DecidableEq

/-- What an input element of the demo panel holds in `value`. -/
inductive InputValue where
  /-- Text typed by the user or present in the markup. -/
  | text (s : String)
  /-- The value `config.inactivityTime / 1000` written by setupDemoControls. -/
  | thresholdSeconds (ms : JSNum)
  /-- The value `config.blurIntensity` written by setupDemoControls. -/
  | intensity (px : JSNum)
  deriving DecidableEq

/-- The part of the document the class reads and writes. -/
structure Page where
  /-- What `document.querySelector` finds: selector and element. -/
  selectors : List (String × Nat)
  /-- Class blur-active on the body. -/
  bodyBlurActive : Bool
  /-- Class blur-inactive on the body. -/
  bodyBlurInactive : Bool
  /-- The textContent of the status message element. -/
  statusText : String
  /-- The element with id status-banner: `none` when the page has none,
  otherwise whether it carries the class active. -/
  banner : Option Bool
  /-- Radius of the blur in the overlay style property backdropFilter. -/
  backdropFilter : Option ℚ
  /-- Radius of the blur in the overlay style property webkitBackdropFilter. -/
  webkitBackdropFilter : Option ℚ
  /-- The input with id inactivity-timer, when present. -/
  timerInput : Option InputValue
  /-- Whether the button with id apply-timer is present. -/
  applyTimerBtn : Bool
  /-- The input with id blur-intensity, when present. -/
  blurInput : Option InputValue
  /-- Whether the button with id apply-blur is present. -/
  applyBlurBtn : Bool
  /-- Whether the button with id force-blur is present. -/
  forceBlurBtn : Bool
  /-- Whether the button with id clear-blur is present. -/
  clearBlurBtn : Bool
  deriving DecidableEq

/-- The body of a callback handed to setTimeout. -/
inductive TimeoutCb where
  /-- The status hide scheduled by deactivateBlur (2000 ms). -/
  | hideStatus
  /-- The touch follow-up scheduled by handleUserActivity (50 ms). -/
  | touchCheck
  deriving DecidableEq

/-- A pending one-shot timer. -/
structure Timeout where
  id : Nat
  due : Int
  cb : TimeoutCb
  deriving DecidableEq

/-- The object a listener is attached to. -/
inductive Target where
  | document
  | window
  | overlay
  | applyTimerBtn
  | applyBlurBtn
  | forceBlurBtn
  | clearBlurBtn
  deriving DecidableEq

/-- The body of a listener. -/
inductive Handler where
  | domContentLoaded
  | userActivity
  | deactivate
  | visibilityChange
  | beforeUnload
  | applyTimer
  | applyBlur
  | forceBlur
  | clearBlur
  deriving DecidableEq

/-- One call of addEventListener. -/
structure Listener where
  target : Target
  type : String
  handler : Handler
  deriving DecidableEq

/-- The user callbacks of the configuration. -/
inductive Callback where
  | onActivate
  | onDeactivate
  deriving DecidableEq

/-- The messages the class writes. -/
inductive Message where
  | initialized
  | activated
  | deactivated
  | inactivityTimeSet (seconds : JSNum)
  | blurIntensitySet (intensity : JSNum)
  | cleanedUp
  | sensitiveNotFound (selector : String)
  | overlayNotFound (selector : String)
  deriving DecidableEq

/-- A line on the console. -/
inductive ConsoleLine where
  | log (m : Message)
  | error (m : Message)
  /-- The report of a TypeError no handler caught. -/
  | uncaughtTypeError
  deriving DecidableEq

/-- The browser facilities the class uses. -/
structure Host where
  /-- The test `'ontouchstart' in window || navigator.maxTouchPoints > 0`. -/
  touchCapable : Bool
  /-- The last timer handle given out; handles are positive. -/
  lastTimerId : Nat
  /-- Handles of the running intervals (each runs the poll check every 1000 ms). -/
  intervals : List Nat
  /-- The pending one-shot timers, in the order they were scheduled. -/
  timeouts : List Timeout
  /-- The listeners added so far. -/
  listeners : List Listener
  /-- The callback invocations so far. -/
  calls : List Callback
  /-- The console output so far. -/
  console : List ConsoleLine
  deriving DecidableEq

/-- The whole state: the object, the page and the browser. -/
structure World where
  s : Session
  page : Page
  host : Host
  deriving DecidableEq

/-- An exception that leaves the method: a TypeError raised by reading a
property of null, with the state reached when it was raised. -/
inductive JSError where
  | typeError (state : World)
  deriving DecidableEq

/-! ## Browser primitives -/

/-- The call `document.querySelector(selector)`. -/
def querySelector (p : Page) (selector : String) : Option Nat :=
  (p.selectors.find? (fun e => e.1 == selector)).map Prod.snd

/-- The call `setTimeout(cb, delay)` made at time `now`. -/
def setTimeout (cb : TimeoutCb) (delay : Int) (now : Int) (w : World) : World :=
  { w with host := { w.host with
      lastTimerId := w.host.lastTimerId + 1
      timeouts := w.host.timeouts ++ [⟨w.host.lastTimerId + 1, now + delay, cb⟩] } }

/-- The call `addEventListener` on a target. -/
def addEventListener (t : Target) (type : String) (h : Handler) (w : World) : World :=
  { w with host := { w.host with listeners := w.host.listeners ++ [⟨t, type, h⟩] } }

/-- Assigning `blur(<v>px)` to a style property: a value that does not parse
as a length is dropped and the property keeps what it had. -/
def assignBlur (old : Option ℚ) (v : JSNum) : Option ℚ :=
  match v with
  | JSNum.fin q => some q
  | _ => old

/-- The expression `document.getElementById('status-banner').classList` with
add('active') or remove('active'): a TypeError when the page has no element
with that id. -/
def setBannerActive (active : Bool) (w : World) : Except JSError World :=
  match w.page.banner with
  | none => Except.error (JSError.typeError w)
  | some _ => Except.ok { w with page := { w.page with banner := some active } }

/-- The state a listener or a timer callback leaves behind: the one it
returned, or the one reached when it threw, the browser reporting the
exception on the console. -/
def settle : Except JSError World → World
  | Except.ok w => w
  | Except.error (JSError.typeError w) =>
    { w with host := { w.host with console := w.host.console ++ [ConsoleLine.uncaughtTypeError] } }

/-! ## The methods of the class -/

/-- The method log: writes to the console in debug mode only. -/
def log (m : Message) (w : World) : World :=
  if w.s.config.debug then
    { w with host := { w.host with console := w.host.console ++ [ConsoleLine.log m] } }
  else w

/-- The method logError. -/
def logError (m : Message) (w : World) : World :=
  { w with host := { w.host with console := w.host.console ++ [ConsoleLine.error m] } }

/-- The method activateBlur. -/
def activateBlur (w : World) : Except JSError World :=
  if w.s.isBlurActive then Except.ok w
  else
    let w1 := { w with page := { w.page with bodyBlurActive := true, bodyBlurInactive := false } }
    let status :=
      if w1.s.statusMessage.isSome && w1.s.config.showStatusBanner then
        setBannerActive true
          { w1 with page := { w1.page with
              statusText := "BlurSession active - content is protected" } }
      else Except.ok w1
    match status with
    | Except.error e => Except.error e
    | Except.ok w2 =>
      let w3 := { w2 with s := { w2.s with isBlurActive := true } }
      let w4 :=
        if w3.s.config.onActivate then
          { w3 with host := { w3.host with calls := w3.host.calls ++ [Callback.onActivate] } }
        else w3
      Except.ok (log Message.activated w4)

/-- The method deactivateBlur, run at time `now`. -/
def deactivateBlur (now : Int) (w : World) : Except JSError World :=
  if !w.s.isBlurActive then Except.ok w
  else
    let w1 := { w with page := { w.page with bodyBlurActive := false, bodyBlurInactive := true } }
    let status :=
      if w1.s.statusMessage.isSome && w1.s.config.showStatusBanner then
        match setBannerActive true
            { w1 with page := { w1.page with
                statusText := "BlurSession inactive - content is visible" } } with
        | Except.error e => Except.error e
        | Except.ok shown => Except.ok (setTimeout TimeoutCb.hideStatus 2000 now shown)
      else Except.ok w1
    match status with
    | Except.error e => Except.error e
    | Except.ok w2 =>
      let w3 := { w2 with s := { w2.s with isBlurActive := false } }
      let w4 :=
        if w3.s.config.onDeactivate then
          { w3 with host := { w3.host with calls := w3.host.calls ++ [Callback.onDeactivate] } }
        else w3
      let w5 := log Message.deactivated w4
      Except.ok { w5 with s := { w5.s with lastActivity := now } }

/-- The callback startActivityMonitoring hands to setInterval, run at `now`. -/
def pollTick (now : Int) (w : World) : Except JSError World :=
  let elapsed : Int := now - w.s.lastActivity
  if JSNum.ge (JSNum.fin (elapsed : ℚ)) w.s.config.inactivityTime && !w.s.isBlurActive then
    activateBlur w
  else Except.ok w

/-- The method startActivityMonitoring, run at time `now`. -/
def startActivityMonitoring (now : Int) (w : World) : World :=
  let w1 := { w with s := { w.s with lastActivity := now } }
  { w1 with
    s := { w1.s with inactivityInterval := some (w1.host.lastTimerId + 1) }
    host := { w1.host with
      lastTimerId := w1.host.lastTimerId + 1
      intervals := w1.host.intervals ++ [w1.host.lastTimerId + 1] } }

/-- The method handleUserActivity, run at time `now`. -/
def handleUserActivity (now : Int) (w : World) : Except JSError World :=
  let w1 := { w with s := { w.s with lastActivity := now } }
  let deactivated := if w1.s.isBlurActive then deactivateBlur now w1 else Except.ok w1
  match deactivated with
  | Except.error e => Except.error e
  | Except.ok w2 =>
    Except.ok (if w2.host.touchCapable then setTimeout TimeoutCb.touchCheck 50 now w2 else w2)

/-- The listener bindEvents adds for visibilitychange; `hidden` is
`document.hidden`. -/
def onVisibilityChange (hidden : Bool) (now : Int) (w : World) : Except JSError World :=
  if hidden then activateBlur w else handleUserActivity now w

/-- The method setInactivityTime, run at time `now`; the argument is the
number Math.max makes of it.  The returned state is that of the object the
method returns, the receiver. -/
def setInactivityTime (seconds : JSNum) (now : Int) (w : World) : World :=
  let milliseconds := JSNum.mul (JSNum.max (JSNum.fin 1) seconds) (JSNum.fin 1000)
  let w1 := { w with s := { w.s with config := { w.s.config with inactivityTime := milliseconds } } }
  let w2 := log (Message.inactivityTimeSet seconds) w1
  { w2 with s := { w2.s with lastActivity := now } }

/-- The method setBlurIntensity; the argument is the number Math.min makes of
it.  Reading `this.overlay.style` throws when the overlay is null.  The
returned state is that of the object the method returns, the receiver. -/
def setBlurIntensity (pixels : JSNum) (w : World) : Except JSError World :=
  let intensity := JSNum.max (JSNum.fin 1) (JSNum.min (JSNum.fin 20) pixels)
  let w1 := { w with s := { w.s with config := { w.s.config with blurIntensity := intensity } } }
  match w1.s.overlay with
  | none => Except.error (JSError.typeError w1)
  | some _ =>
    let w2 := { w1 with page := { w1.page with
        backdropFilter := assignBlur w1.page.backdropFilter intensity } }
    let w3 := { w2 with page := { w2.page with
        webkitBackdropFilter := assignBlur w2.page.webkitBackdropFilter intensity } }
    Except.ok (log (Message.blurIntensitySet intensity) w3)

/-- The interaction events bindEvents listens to on the document. -/
def activityEvents : List String :=
  ["mousedown", "mousemove", "keydown", "touchstart", "touchmove", "touchend", "scroll", "click"]

/-- The method bindEvents. -/
def bindEvents (w : World) : World :=
  let w1 := activityEvents.foldl
    (fun acc eventType => addEventListener Target.document eventType Handler.userActivity acc) w
  let w2 := addEventListener Target.overlay "click" Handler.deactivate w1
  let w3 := addEventListener Target.overlay "touchend" Handler.deactivate w2
  let w4 := addEventListener Target.document "visibilitychange" Handler.visibilityChange w3
  addEventListener Target.window "beforeunload" Handler.beforeUnload w4

/-- The method setupDemoControls. -/
def setupDemoControls (w : World) : World :=
  let w1 :=
    if w.page.timerInput.isSome && w.page.applyTimerBtn then
      addEventListener Target.applyTimerBtn "click" Handler.applyTimer
        { w with page := { w.page with
            timerInput := some (InputValue.thresholdSeconds w.s.config.inactivityTime) } }
    else w
  let w2 :=
    if w1.page.blurInput.isSome && w1.page.applyBlurBtn then
      addEventListener Target.applyBlurBtn "click" Handler.applyBlur
        { w1 with page := { w1.page with
            blurInput := some (InputValue.intensity w1.s.config.blurIntensity) } }
    else w1
  let w3 :=
    if w2.page.forceBlurBtn then
      addEventListener Target.forceBlurBtn "click" Handler.forceBlur w2
    else w2
  if w3.page.clearBlurBtn then
    addEventListener Target.clearBlurBtn "click" Handler.clearBlur w3
  else w3

/-- The listener setupDemoControls adds to the apply-timer button; `parsed` is
what `parseInt(timerInput.value, 10)` returns. -/
def applyTimerClick (parsed : JSNum) (now : Int) (w : World) : World :=
  if !parsed.isNaN && JSNum.gt parsed (JSNum.fin 0) then setInactivityTime parsed now w else w

/-- The listener setupDemoControls adds to the apply-blur button; `parsed` is
what `parseInt(blurInput.value, 10)` returns. -/
def applyBlurClick (parsed : JSNum) (w : World) : Except JSError World :=
  if !parsed.isNaN then setBlurIntensity parsed w else Except.ok w

/-- The method init, run at time `now`. -/
def init (now : Int) (w : World) : Except JSError World :=
  if w.s.isInitialized then Except.ok w
  else
    let w1 := { w with s := { w.s with
        sensitiveArea := querySelector w.page w.s.config.sensitiveSelector } }
    let w2 := { w1 with s := { w1.s with
        overlay := querySelector w1.page w1.s.config.overlaySelector } }
    let w3 := { w2 with s := { w2.s with
        statusMessage := querySelector w2.page w2.s.config.statusMessageSelector } }
    if w3.s.sensitiveArea.isNone then
      Except.ok (logError (Message.sensitiveNotFound w3.s.config.sensitiveSelector) w3)
    else if w3.s.overlay.isNone then
      Except.ok (logError (Message.overlayNotFound w3.s.config.overlaySelector) w3)
    else
      match setBlurIntensity w3.s.config.blurIntensity w3 with
      | Except.error e => Except.error e
      | Except.ok w4 =>
        let w5 := bindEvents w4
        let w6 := startActivityMonitoring now w5
        let w7 := setupDemoControls w6
        let w8 := { w7 with s := { w7.s with isInitialized := true } }
        Except.ok (log Message.initialized w8)

/-- The options object handed to the constructor; `none` is a missing key. -/
structure Options where
  inactivityTime : Option JSNum
  sensitiveSelector : Option String
  overlaySelector : Option String
  blurIntensity : Option JSNum
  statusMessageSelector : Option String
  showStatusBanner : Option Bool
  /-- Whether a function is given as onActivate. -/
  onActivate : Bool
  /-- Whether a function is given as onDeactivate. -/
  onDeactivate : Bool
  debug : Bool
  deriving DecidableEq

/-- The expression `x || d` on an optional number. -/
def numOr (x : Option JSNum) (d : JSNum) : JSNum :=
  match x with
  | some v => if v.truthy then v else d
  | none => d

/-- The expression `x || d` on an optional string. -/
def strOr (x : Option String) (d : String) : String :=
  match x with
  | some v => if v.isEmpty then d else v
  | none => d

/-- The configuration the constructor builds from the options. -/
def mkConfig (options : Options) : Config :=
  { inactivityTime := numOr options.inactivityTime (JSNum.fin 5000)
    sensitiveSelector := strOr options.sensitiveSelector "#sensitive-area"
    overlaySelector := strOr options.overlaySelector "#blur-overlay"
    blurIntensity := numOr options.blurIntensity (JSNum.fin 10)
    statusMessageSelector := strOr options.statusMessageSelector "#status-message"
    showStatusBanner := options.showStatusBanner.getD true
    onActivate := options.onActivate
    onDeactivate := options.onDeactivate
    debug := options.debug }

/-- The fields the constructor sets before it turns to init. -/
def initialSession (options : Options) (now : Int) : Session :=
  { config := mkConfig options
    inactivityTimer := none
    isBlurActive := false
    lastActivity := now
    isInitialized := false
    sensitiveArea := none
    overlay := none
    statusMessage := none
    inactivityInterval := none }

/-- The constructor, run at time `now` in a page and a browser; `loading` is
the test `document.readyState === 'loading'`. -/
def construct (options : Options) (loading : Bool) (now : Int) (page : Page) (host : Host) :
    Except JSError World :=
  let w : World := { s := initialSession options now, page := page, host := host }
  if loading then
    Except.ok (addEventListener Target.document "DOMContentLoaded" Handler.domContentLoaded w)
  else init now w

/-- The call `clearInterval(id)`. -/
def clearInterval (id : Nat) (w : World) : World :=
  { w with host := { w.host with intervals := w.host.intervals.filter (fun i => i != id) } }

/-- The method cleanup. -/
def cleanup (w : World) : World :=
  let w1 :=
    match w.s.inactivityInterval with
    | some id => if id != 0 then clearInterval id w else w
    | none => w
  log Message.cleanedUp w1

/-! ## Timers and events -/

/-- The body of a one-shot callback, run at time `now`. -/
def runTimeoutCb (cb : TimeoutCb) (now : Int) (w : World) : Except JSError World :=
  match cb with
  | TimeoutCb.hideStatus =>
    match setBannerActive false w with
    | Except.error e => Except.error e
    | Except.ok w1 => Except.ok { w1 with page := { w1.page with bodyBlurInactive := false } }
  | TimeoutCb.touchCheck =>
    if w.s.isBlurActive then deactivateBlur now w else Except.ok w

/-- The pending one-shot timer that fires next: the earliest due one, the
first scheduled among equals. -/
def nextTimeout : List Timeout → Option Timeout
  | [] => none
  | t :: rest =>
    match nextTimeout rest with
    | none => some t
    | some u => if u.due < t.due then some u else some t

/-- The browser fires one timer: it leaves the pending list and its callback
runs at its due time. -/
def fireTimeout (t : Timeout) (w : World) : World :=
  settle (runTimeoutCb t.cb t.due
    { w with host := { w.host with timeouts := w.host.timeouts.filter (fun u => u.id != t.id) } })

/-- Time passes up to and including `t` with no event but one-shot timers:
each pending timer due by `t` fires, in order; `fuel` bounds how many. -/
def advance (fuel : Nat) (t : Int) (w : World) : World :=
  match fuel with
  | 0 => w
  | fuel + 1 =>
    match nextTimeout w.host.timeouts with
    | none => w
    | some u => if u.due ≤ t then advance fuel t (fireTimeout u w) else w

/-- The set of pending scheduled callbacks: running intervals and one-shot
timers. -/
def pendingCount (w : World) : Nat :=
  w.host.intervals.length + w.host.timeouts.length

/-- The browser runs the poll check at time `t`. -/
def tick (t : Int) (w : World) : World :=
  settle (pollTick t w)

/-- The poll check run at each of the given times in turn, nothing else
happening in between. -/
def runTicks (ts : List Int) (w : World) : World :=
  ts.foldl (fun acc t => tick t acc) w

/-- How often onActivate has been invoked. -/
def activations (w : World) : Nat :=
  w.host.calls.count Callback.onActivate

/-- How often onDeactivate has been invoked. -/
def deactivations (w : World) : Nat :=
  w.host.calls.count Callback.onDeactivate

/-- Whether the poll check at time `t` finds the threshold reached. -/
def thresholdReached (w : World) (t : Int) : Bool :=
  JSNum.ge (JSNum.fin ((t - w.s.lastActivity : Int) : ℚ)) w.s.config.inactivityTime

/-- Whether the status surface is in use: the test
`this.statusMessage && this.config.showStatusBanner`. -/
def statusInUse (w : World) : Bool :=
  w.s.statusMessage.isSome && w.s.config.showStatusBanner

/-- Whether the banner lookup of activateBlur and deactivateBlur succeeds: the
status surface is not in use, or the page has the element with id
status-banner. -/
def bannerReady (w : World) : Bool :=
  !statusInUse w || w.page.banner.isSome

/-! ## The specification side -/

/-- The clamp of the specification: a number that is not NaN brought into the
range from `lo` to `hi`. -/
def clampTo (lo hi : ℚ) : JSNum → ℚ
  | JSNum.fin q => Max.max lo (Min.min hi q)
  | JSNum.posInf => hi
  | _ => lo

/-! ## Sample states -/

/-- A page with the three default elements and the status banner, and no demo
panel. -/
def samplePage : Page :=
  { selectors := [("#sensitive-area", 1), ("#blur-overlay", 2), ("#status-message", 3)]
    bodyBlurActive := false
    bodyBlurInactive := false
    statusText := ""
    banner := some false
    backdropFilter := none
    webkitBackdropFilter := none
    timerInput := none
    applyTimerBtn := false
    blurInput := none
    applyBlurBtn := false
    forceBlurBtn := false
    clearBlurBtn := false }

/-- A browser with nothing scheduled, bound or written yet; no touch input. -/
def sampleHost : Host :=
  { touchCapable := false
    lastTimerId := 0
    intervals := []
    timeouts := []
    listeners := []
    calls := []
    console := [] }

/-- Options with a threshold of 2000 ms and both callbacks given. -/
def sampleOptions : Options :=
  { inactivityTime := some (JSNum.fin 2000)
    sensitiveSelector := none
    overlaySelector := none
    blurIntensity := none
    statusMessageSelector := none
    showStatusBanner := none
    onActivate := true
    onDeactivate := true
    debug := false }

/-- The configuration `mkConfig sampleOptions`. -/
def sampleConfig : Config :=
  { inactivityTime := JSNum.fin 2000
    sensitiveSelector := "#sensitive-area"
    overlaySelector := "#blur-overlay"
    blurIntensity := JSNum.fin 10
    statusMessageSelector := "#status-message"
    showStatusBanner := true
    onActivate := true
    onDeactivate := true
    debug := false }

/-- The listeners bindEvents adds. -/
def sampleListeners : List Listener :=
  [⟨Target.document, "mousedown", Handler.userActivity⟩,
   ⟨Target.document, "mousemove", Handler.userActivity⟩,
   ⟨Target.document, "keydown", Handler.userActivity⟩,
   ⟨Target.document, "touchstart", Handler.userActivity⟩,
   ⟨Target.document, "touchmove", Handler.userActivity⟩,
   ⟨Target.document, "touchend", Handler.userActivity⟩,
   ⟨Target.document, "scroll", Handler.userActivity⟩,
   ⟨Target.document, "click", Handler.userActivity⟩,
   ⟨Target.overlay, "click", Handler.deactivate⟩,
   ⟨Target.overlay, "touchend", Handler.deactivate⟩,
   ⟨Target.document, "visibilitychange", Handler.visibilityChange⟩,
   ⟨Target.window, "beforeunload", Handler.beforeUnload⟩]

/-- The session `new BlurSession(sampleOptions)` leaves at time 0 in
`samplePage` once the document is loaded: initialized and Visible. -/
def sampleWorld : World :=
  { s :=
      { config := sampleConfig
        inactivityTimer := none
        isBlurActive := false
        lastActivity := 0
        isInitialized := true
        sensitiveArea := some 1
        overlay := some 2
        statusMessage := some 3
        inactivityInterval := some 1 }
    page := { samplePage with backdropFilter := some 10, webkitBackdropFilter := some 10 }
    host := { sampleHost with lastTimerId := 1, intervals := [1], listeners := sampleListeners } }

/-- The sample session after the listener of the force-blur button, or a
visibility change to hidden, has run: Obscured. -/
def sampleObscured : World := settle (activateBlur sampleWorld)

/-- The sample session after the poller has run at 1000 and 2000 ms. -/
def samplePolled : World := runTicks [1000, 2000] sampleWorld

/-- The sample page without the overlay element. -/
def pageNoOverlay : Page :=
  { samplePage with selectors := [("#sensitive-area", 1), ("#status-message", 3)] }

/-- The sample page without the element with id status-banner. -/
def pageNoBanner : Page :=
  { samplePage with banner := none }

/-- The session `new BlurSession(sampleOptions)` leaves at time 0 in
`pageNoBanner`: initialized and Visible, as init does not look for the banner. -/
def sampleNoBanner : World :=
  { sampleWorld with page := { sampleWorld.page with banner := none } }

/-- The sample session after the tab was hidden at 1000 ms and shown again at
1500 ms: Visible, with the status hide of the deactivation pending. -/
def sampleReturned : World :=
  settle (onVisibilityChange false 1500 (settle (onVisibilityChange true 1000 sampleWorld)))

/-- The sample session in a browser with touch input. -/
def sampleTouch : World :=
  { sampleWorld with host := { sampleWorld.host with touchCapable := true } }

/-- Options with a threshold of 5 ms. -/
def shortOptions : Options :=
  { sampleOptions with inactivityTime := some (JSNum.fin 5) }

/-- The session `new BlurSession(shortOptions)` leaves at time 0 in
`samplePage` in a browser with touch input. -/
def shortTouch : World :=
  { sampleTouch with s := { sampleTouch.s with
      config := { sampleConfig with inactivityTime := JSNum.fin 5 } } }

/-- The calls deactivateBlur at `t1`, activateBlur, deactivateBlur at `t3`,
each in a listener of its own. -/
def rapidSequence (t1 t3 : Int) (w : World) : World :=
  settle (deactivateBlur t3 (settle (activateBlur (settle (deactivateBlur t1 w)))))

/-- The session `shortTouch` after a touchstart at 990 ms: Visible, last
activity at 990, the touch follow-up pending for 1040. -/
def shortTouched : World := settle (handleUserActivity 990 shortTouch)

/-- The state activateBlur leaves behind when it throws at the banner lookup
in `sampleNoBanner`: the body has the class blur-active and the status text is
written, isBlurActive is still false. -/
def sampleNoBannerThrown : World :=
  { sampleNoBanner with page := { sampleNoBanner.page with
      bodyBlurActive := true
      bodyBlurInactive := false
      statusText := "BlurSession active - content is protected" } }

/-! ## Rounding to a double -/

theorem roundHalfEven_intCast (k : ℤ) : JSNum.roundHalfEven (k : ℚ) = k := by
  simp [JSNum.roundHalfEven]

theorem le_roundHalfEven (k : ℤ) (x : ℚ) (h : (k : ℚ) ≤ x) : k ≤ JSNum.roundHalfEven x := by
  have hf : k ≤ ⌊x⌋ := Int.le_floor.mpr h
  unfold JSNum.roundHalfEven
  split_ifs <;> omega

theorem ulp_pos (q : ℚ) : 0 < JSNum.ulp q := by
  unfold JSNum.ulp
  positivity

/-- A rational on its own grid and below 2 ^ 1024 in size is its own rounding. -/
theorem roundDouble_of_grid (q : ℚ) (k : ℤ) (hk : q = (k : ℚ) * JSNum.ulp q)
    (hlo : -(2 : ℚ) ^ (1024 : ℕ) < q) (hhi : q < (2 : ℚ) ^ (1024 : ℕ)) :
    JSNum.roundDouble q = JSNum.fin q := by
  have hu := ulp_pos q
  have hdiv : q / JSNum.ulp q = (k : ℚ) := (div_eq_iff (ne_of_gt hu)).mpr hk
  have hr : (JSNum.roundHalfEven (q / JSNum.ulp q) : ℚ) * JSNum.ulp q = q := by
    rw [hdiv, roundHalfEven_intCast, ← hk]
  unfold JSNum.roundDouble
  rw [hr, if_neg (not_le.mpr hhi), if_neg (not_le.mpr hlo)]

/-- The rounding of `q` is at least every grid point below `q`. -/
theorem le_roundHalfEven_mul_ulp (q : ℚ) (k : ℤ) (hk : (k : ℚ) * JSNum.ulp q ≤ q) :
    (k : ℚ) * JSNum.ulp q ≤ (JSNum.roundHalfEven (q / JSNum.ulp q) : ℚ) * JSNum.ulp q := by
  have hu := ulp_pos q
  have h1 : (k : ℚ) ≤ q / JSNum.ulp q := (le_div_iff₀ hu).mpr hk
  have h2 : k ≤ JSNum.roundHalfEven (q / JSNum.ulp q) := le_roundHalfEven k _ h1
  have h3 : (k : ℚ) ≤ (JSNum.roundHalfEven (q / JSNum.ulp q) : ℚ) := by exact_mod_cast h2
  exact mul_le_mul_of_nonneg_right h3 (le_of_lt hu)

theorem ulp_eq (q : ℚ) (e : ℤ) (hq : 0 < q) (he : -1022 ≤ e)
    (hlo : (2 : ℚ) ^ e ≤ q) (hhi : q < (2 : ℚ) ^ (e + 1)) :
    JSNum.ulp q = (2 : ℚ) ^ (e - 52) := by
  have h1 : e ≤ Int.log 2 q :=
    (Int.zpow_le_iff_le_log (b := 2) (by norm_num) hq (x := e)).mp (by simpa using hlo)
  have h2 : Int.log 2 q < e + 1 :=
    (Int.lt_zpow_iff_log_lt (b := 2) (by norm_num) hq (x := e + 1)).mp (by simpa using hhi)
  have h3 : Int.log 2 q = e := by omega
  unfold JSNum.ulp
  rw [abs_of_pos hq, h3, max_eq_left he]

theorem roundDouble_1000 : JSNum.roundDouble 1000 = JSNum.fin 1000 := by
  have hu : JSNum.ulp 1000 = (2 : ℚ) ^ ((9 : ℤ) - 52) :=
    ulp_eq 1000 9 (by norm_num) (by norm_num) (by norm_num) (by norm_num)
  refine roundDouble_of_grid 1000 (1000 * 2 ^ 43) ?_ ?_ ?_
  · rw [hu]; norm_num
  · have : (0 : ℚ) < 2 ^ (1024 : ℕ) := by positivity
    linarith
  · calc (1000 : ℚ) < 2 ^ (10 : ℕ) := by norm_num
      _ ≤ 2 ^ (1024 : ℕ) := pow_le_pow_right₀ (by norm_num) (by norm_num)

/-- The rounding of a rational that is at least 1 is at least the power of two
below it. -/
theorem zpow_log_le_round (q : ℚ) (hq : 1 ≤ q) :
    (2 : ℚ) ^ Int.log 2 q ≤ (JSNum.roundHalfEven (q / JSNum.ulp q) : ℚ) * JSNum.ulp q := by
  have hpos : 0 < q := by linarith
  have hlog : (0 : ℤ) ≤ Int.log 2 q :=
    (Int.zpow_le_iff_le_log (b := 2) (by norm_num) hpos (x := 0)).mp (by simpa using hq)
  have hulp : JSNum.ulp q = (2 : ℚ) ^ (Int.log 2 q - 52) := by
    unfold JSNum.ulp
    rw [abs_of_pos hpos, max_eq_left (by omega)]
  have hk : (((2 ^ 52 : ℤ)) : ℚ) * JSNum.ulp q = (2 : ℚ) ^ Int.log 2 q := by
    have h52 : (((2 ^ 52 : ℤ)) : ℚ) = (2 : ℚ) ^ (52 : ℤ) := by norm_num
    rw [hulp, h52, ← zpow_add₀ (by norm_num : (2 : ℚ) ≠ 0)]
    congr 1
    omega
  have hle : (2 : ℚ) ^ Int.log 2 q ≤ q := by
    simpa using Int.zpow_log_le_self (b := 2) (by norm_num) hpos
  have := le_roundHalfEven_mul_ulp q (2 ^ 52) (by rw [hk]; exact hle)
  rw [hk] at this
  exact this

/-- Rounding does not take a rational that is at least 1000 below 1000. -/
theorem le_roundDouble_of_le (q : ℚ) (hq : 1000 ≤ q) :
    JSNum.le (JSNum.fin 1000) (JSNum.roundDouble q) = true := by
  have hpos : 0 < q := by linarith
  have hlog : (9 : ℤ) ≤ Int.log 2 q :=
    (Int.zpow_le_iff_le_log (b := 2) (by norm_num) hpos (x := 9)).mp (by norm_num; linarith)
  have hulp : JSNum.ulp q = (2 : ℚ) ^ (Int.log 2 q - 52) := by
    unfold JSNum.ulp
    rw [abs_of_pos hpos, max_eq_left (by omega)]
  have hr : (1000 : ℚ) ≤ (JSNum.roundHalfEven (q / JSNum.ulp q) : ℚ) * JSNum.ulp q := by
    rcases Int.lt_or_le (Int.log 2 q) 10 with h10 | h10
    · have h9 : Int.log 2 q = 9 := by omega
      have hu9 : JSNum.ulp q = (2 : ℚ) ^ ((9 : ℤ) - 52) := by rw [hulp, h9]
      have hk : (((1000 * 2 ^ 43 : ℤ)) : ℚ) * JSNum.ulp q = 1000 := by
        rw [hu9]; norm_num
      have := le_roundHalfEven_mul_ulp q (1000 * 2 ^ 43) (by rw [hk]; exact hq)
      rw [hk] at this
      exact this
    · have h1024 : (1000 : ℚ) ≤ (2 : ℚ) ^ Int.log 2 q := by
        calc (1000 : ℚ) ≤ (2 : ℚ) ^ (10 : ℤ) := by norm_num
          _ ≤ (2 : ℚ) ^ Int.log 2 q := zpow_le_zpow_right₀ (by norm_num) h10
      exact le_trans h1024 (zpow_log_le_round q (by linarith))
  unfold JSNum.roundDouble
  split_ifs with h1 h2
  · rfl
  · exfalso
    have : (0 : ℚ) < 2 ^ (1024 : ℕ) := by positivity
    linarith
  · simpa [JSNum.le] using hr

/-- A rational of size 2 ^ 1024 or more rounds to Infinity. -/
theorem roundDouble_of_large (q : ℚ) (hq : (2 : ℚ) ^ (1024 : ℕ) ≤ q) :
    JSNum.roundDouble q = JSNum.posInf := by
  have h1 : (1 : ℚ) ≤ q := le_trans (one_le_pow₀ (by norm_num)) hq
  have hpos : 0 < q := by linarith
  have h : ((2 : ℚ) ^ (1024 : ℤ)) = (2 : ℚ) ^ (1024 : ℕ) := by
    rw [← zpow_natCast, Nat.cast_ofNat]
  have hlog : (1024 : ℤ) ≤ Int.log 2 q :=
    (Int.zpow_le_iff_le_log (b := 2) (by norm_num) hpos (x := 1024)).mp
      (by rw [Nat.cast_ofNat, h]; exact hq)
  have hbig : (2 : ℚ) ^ (1024 : ℕ) ≤ (2 : ℚ) ^ Int.log 2 q := by
    rw [← h]
    exact zpow_le_zpow_right₀ (by norm_num) hlog
  unfold JSNum.roundDouble
  rw [if_pos (le_trans hbig (zpow_log_le_round q h1))]

/-- An integer from 1 to below 2 ^ 53 is a double. -/
theorem roundDouble_int (m : ℤ) (h1 : 1 ≤ m) (h2 : m < 2 ^ 53) :
    JSNum.roundDouble (m : ℚ) = JSNum.fin (m : ℚ) := by
  have hpos : (0 : ℚ) < (m : ℚ) := by exact_mod_cast (by omega : 0 < m)
  have hlo : (0 : ℤ) ≤ Int.log 2 (m : ℚ) :=
    (Int.zpow_le_iff_le_log (b := 2) (by norm_num) hpos (x := 0)).mp
      (by simpa using (by exact_mod_cast h1 : (1 : ℚ) ≤ (m : ℚ)))
  have hhi : Int.log 2 (m : ℚ) < 53 :=
    (Int.lt_zpow_iff_log_lt (b := 2) (by norm_num) hpos (x := 53)).mp
      (by
        have : (m : ℚ) < ((2 ^ 53 : ℤ) : ℚ) := by exact_mod_cast h2
        norm_num at this ⊢
        exact this)
  have hulp : JSNum.ulp (m : ℚ) = (2 : ℚ) ^ (Int.log 2 (m : ℚ) - 52) := by
    unfold JSNum.ulp
    rw [abs_of_pos hpos, max_eq_left (by omega)]
  obtain ⟨n, hn⟩ : ∃ n : ℕ, (n : ℤ) = 52 - Int.log 2 (m : ℚ) :=
    ⟨(52 - Int.log 2 (m : ℚ)).toNat, Int.toNat_of_nonneg (by omega)⟩
  refine roundDouble_of_grid (m : ℚ) (m * 2 ^ n) ?_ ?_ ?_
  · rw [hulp]
    push_cast
    rw [← zpow_natCast, hn, mul_assoc, ← zpow_add₀ (by norm_num : (2 : ℚ) ≠ 0)]
    simp
  · have : (0 : ℚ) < 2 ^ (1024 : ℕ) := by positivity
    linarith
  · have h53 : (m : ℚ) < (2 : ℚ) ^ (53 : ℕ) := by exact_mod_cast h2
    calc (m : ℚ) < (2 : ℚ) ^ (53 : ℕ) := h53
      _ ≤ 2 ^ (1024 : ℕ) := pow_le_pow_right₀ (by norm_num) (by norm_num)

/-- The product of the largest safe integer and 1000 is rounded as the code
rounds it: 9007199254740991000 is not a double, the nearest one is 24 below. -/
theorem mul_maxSafe_1000 :
    JSNum.mul (JSNum.fin 9007199254740991) (JSNum.fin 1000) = JSNum.fin 9007199254740990976 := by
  have hq : (9007199254740991 : ℚ) * 1000 = 9007199254740991000 := by norm_num
  have hu : JSNum.ulp 9007199254740991000 = (2 : ℚ) ^ ((62 : ℤ) - 52) :=
    ulp_eq _ 62 (by norm_num) (by norm_num) (by norm_num) (by norm_num)
  have hr : JSNum.roundHalfEven (9007199254740991000 / JSNum.ulp 9007199254740991000)
      = 8796093022207999 := by
    rw [hu]
    have hfl : ⌊(9007199254740991000 : ℚ) / (2 : ℚ) ^ ((62 : ℤ) - 52)⌋ = 8796093022207999 := by
      rw [Int.floor_eq_iff]
      norm_num
    unfold JSNum.roundHalfEven
    rw [hfl]
    norm_num
  show JSNum.roundDouble (9007199254740991 * 1000) = _
  rw [hq]
  unfold JSNum.roundDouble
  rw [hr, hu]
  norm_num

/-- The product of Number.MAX_VALUE and 1000 is Infinity. -/
theorem mul_maxValue_1000 :
    JSNum.mul (JSNum.fin ((2 ^ 53 - 1) * 2 ^ 971)) (JSNum.fin 1000) = JSNum.posInf := by
  show JSNum.roundDouble ((2 ^ 53 - 1) * 2 ^ 971 * 1000) = _
  apply roundDouble_of_large
  have h : (2 : ℚ) ^ (1024 : ℕ) = 2 ^ 53 * 2 ^ 971 := by rw [← pow_add]
  rw [h]
  have hp : (0 : ℚ) < 2 ^ 971 := by positivity
  nlinarith [hp]

/-! ## Basic facts about the transitions -/

/-- The sample session is what the constructor builds. -/
theorem construct_sample :
    construct sampleOptions false 0 samplePage sampleHost = Except.ok sampleWorld := by
  rfl

/-- The constructor succeeds in a page without the status banner. -/
theorem construct_sampleNoBanner :
    construct sampleOptions false 0 pageNoBanner sampleHost = Except.ok sampleNoBanner := by
  rfl

/-- The constructor accepts a threshold of 5 ms. -/
theorem construct_shortTouch :
    construct shortOptions false 0 samplePage { sampleHost with touchCapable := true }
      = Except.ok shortTouch := by
  rfl

theorem log_s (m : Message) (w : World) : (log m w).s = w.s := by
  unfold log; split <;> rfl

theorem activateBlur_of_active (w : World) (h : w.s.isBlurActive = true) :
    activateBlur w = Except.ok w := by
  simp [activateBlur, h]

theorem deactivateBlur_of_visible (now : Int) (w : World) (h : w.s.isBlurActive = false) :
    deactivateBlur now w = Except.ok w := by
  simp [deactivateBlur, h]

/-- The state activateBlur builds from a Visible session when the banner
lookup succeeds, field by field. -/
theorem activateBlur_of_visible (w : World) (h : w.s.isBlurActive = false)
    (hban : bannerReady w = true) :
    activateBlur w = Except.ok
      { s := { w.s with isBlurActive := true }
        page := { w.page with
          bodyBlurActive := true
          bodyBlurInactive := false
          statusText := if statusInUse w then "BlurSession active - content is protected"
            else w.page.statusText
          banner := if statusInUse w then some true else w.page.banner }
        host := { w.host with
          calls := if w.s.config.onActivate then w.host.calls ++ [Callback.onActivate]
            else w.host.calls
          console := if w.s.config.debug then
              w.host.console ++ [ConsoleLine.log Message.activated]
            else w.host.console } } := by
  by_cases hs : (w.s.statusMessage.isSome && w.s.config.showStatusBanner) = true
  · have hb : w.page.banner.isSome = true := by
      simpa [bannerReady, statusInUse, hs] using hban
    obtain ⟨b, hb⟩ := Option.isSome_iff_exists.mp hb
    by_cases hc : w.s.config.onActivate = true <;>
    by_cases hd : w.s.config.debug = true <;>
    simp [activateBlur, setBannerActive, log, statusInUse, h, hs, hc, hd, hb]
  · by_cases hc : w.s.config.onActivate = true <;>
    by_cases hd : w.s.config.debug = true <;>
    simp [activateBlur, log, statusInUse, h, hs, hc, hd]

/-- The exception activateBlur raises from a Visible session when the status
surface is in use and the page has no status banner: the body classes and the
status text are written, isBlurActive is not. -/
theorem activateBlur_of_no_banner (w : World) (h : w.s.isBlurActive = false)
    (hs : statusInUse w = true) (hb : w.page.banner = none) :
    activateBlur w = Except.error (JSError.typeError
      { w with page := { w.page with
          bodyBlurActive := true
          bodyBlurInactive := false
          statusText := "BlurSession active - content is protected" } }) := by
  have hs2 : (w.s.statusMessage.isSome && w.s.config.showStatusBanner) = true := hs
  simp [activateBlur, setBannerActive, h, hs2, hb]

/-- The state deactivateBlur builds from an Obscured session when the banner
lookup succeeds, field by field. -/
theorem deactivateBlur_of_active (now : Int) (w : World) (h : w.s.isBlurActive = true)
    (hban : bannerReady w = true) :
    deactivateBlur now w = Except.ok
      { s := { w.s with isBlurActive := false, lastActivity := now }
        page := { w.page with
          bodyBlurActive := false
          bodyBlurInactive := true
          statusText := if statusInUse w then "BlurSession inactive - content is visible"
            else w.page.statusText
          banner := if statusInUse w then some true else w.page.banner }
        host := { w.host with
          lastTimerId := if statusInUse w then w.host.lastTimerId + 1 else w.host.lastTimerId
          timeouts := if statusInUse w then
              w.host.timeouts ++ [⟨w.host.lastTimerId + 1, now + 2000, TimeoutCb.hideStatus⟩]
            else w.host.timeouts
          calls := if w.s.config.onDeactivate then w.host.calls ++ [Callback.onDeactivate]
            else w.host.calls
          console := if w.s.config.debug then
              w.host.console ++ [ConsoleLine.log Message.deactivated]
            else w.host.console } } := by
  by_cases hs : (w.s.statusMessage.isSome && w.s.config.showStatusBanner) = true
  · have hb : w.page.banner.isSome = true := by
      simpa [bannerReady, statusInUse, hs] using hban
    obtain ⟨b, hb⟩ := Option.isSome_iff_exists.mp hb
    by_cases hc : w.s.config.onDeactivate = true <;>
    by_cases hd : w.s.config.debug = true <;>
    simp [deactivateBlur, setBannerActive, setTimeout, log, statusInUse, h, hs, hc, hd, hb]
  · by_cases hc : w.s.config.onDeactivate = true <;>
    by_cases hd : w.s.config.debug = true <;>
    simp [deactivateBlur, setTimeout, log, statusInUse, h, hs, hc, hd]

/-- When activateBlur returns, the session is Obscured. -/
theorem activateBlur_ok_isBlurActive (w w1 : World) (h : activateBlur w = Except.ok w1) :
    w1.s.isBlurActive = true := by
  by_cases ha : w.s.isBlurActive = true
  · rw [activateBlur_of_active w ha] at h
    cases h
    exact ha
  · have hv : w.s.isBlurActive = false := by simpa using ha
    by_cases hban : bannerReady w = true
    · rw [activateBlur_of_visible w hv hban] at h
      cases h
      rfl
    · have hs : statusInUse w = true := by
        by_contra hc
        simp [bannerReady, hc] at hban
      have hb : w.page.banner = none := by
        cases hbb : w.page.banner with
        | none => rfl
        | some b => simp [bannerReady, hbb] at hban
      rw [activateBlur_of_no_banner w hv hs hb] at h
      cases h

/-- When activateBlur returns from a Visible session, the banner lookup of a
later deactivateBlur succeeds. -/
theorem activateBlur_ok_bannerReady (w w1 : World) (hv : w.s.isBlurActive = false)
    (h : activateBlur w = Except.ok w1) : bannerReady w1 = true := by
  by_cases hban : bannerReady w = true
  · rw [activateBlur_of_visible w hv hban] at h
    cases h
    by_cases hs : statusInUse w = true
    · have hs1 : (w.s.statusMessage.isSome && w.s.config.showStatusBanner) = true := hs
      simp [bannerReady, statusInUse, hs1]
    · have hs2 : (w.s.statusMessage.isSome && w.s.config.showStatusBanner) = false := by
        simpa [statusInUse] using hs
      simp [bannerReady, statusInUse, hs2]
  · have hs : statusInUse w = true := by
      by_contra hc
      simp [bannerReady, hc] at hban
    have hb : w.page.banner = none := by
      cases hbb : w.page.banner with
      | none => rfl
      | some b => simp [bannerReady, hbb] at hban
    rw [activateBlur_of_no_banner w hv hs hb] at h
    cases h

/-- When deactivateBlur returns, the session is Visible. -/
theorem deactivateBlur_ok_isBlurActive (now : Int) (w w1 : World)
    (h : deactivateBlur now w = Except.ok w1) : w1.s.isBlurActive = false := by
  by_cases ha : w.s.isBlurActive = true
  · by_cases hs : (w.s.statusMessage.isSome && w.s.config.showStatusBanner) = true
    · cases hb : w.page.banner with
      | none => simp [deactivateBlur, setBannerActive, ha, hs, hb] at h
      | some b =>
        have hban : bannerReady w = true := by simp [bannerReady, hb]
        rw [deactivateBlur_of_active now w ha hban] at h
        cases h
        rfl
    · have hban : bannerReady w = true := by
        have hs2 : (w.s.statusMessage.isSome && w.s.config.showStatusBanner) = false := by
          simpa using hs
        simp [bannerReady, statusInUse, hs2]
      rw [deactivateBlur_of_active now w ha hban] at h
      cases h
      rfl
  · have hv : w.s.isBlurActive = false := by simpa using ha
    rw [deactivateBlur_of_visible now w hv] at h
    cases h
    exact hv

theorem tick_of_not_reached (t : Int) (w : World) (h : thresholdReached w t = false) :
    tick t w = w := by
  have h2 : JSNum.ge (JSNum.fin ((t - w.s.lastActivity : ℤ) : ℚ)) w.s.config.inactivityTime
      = false := h
  simp only [tick, pollTick, h2, Bool.false_and, Bool.false_eq_true, if_false]
  rfl

theorem runTicks_of_not_reached (ts : List Int) (w : World)
    (h : ∀ u ∈ ts, thresholdReached w u = false) : runTicks ts w = w := by
  induction ts with
  | nil => rfl
  | cons t ts ih =>
    show runTicks ts (tick t w) = w
    rw [tick_of_not_reached t w (h t (List.mem_cons_self t ts))]
    exact ih (fun u hu => h u (List.mem_cons_of_mem t hu))

theorem JSNum.ge_false_of_lt (a : ℚ) (T : JSNum)
    (h : JSNum.lt (JSNum.fin a) T = true) : JSNum.ge (JSNum.fin a) T = false := by
  cases T with
  | nan => rfl
  | negInf => simp [JSNum.lt] at h
  | posInf => rfl
  | fin n =>
    simp only [JSNum.lt, decide_eq_true_eq] at h
    simp only [JSNum.ge, JSNum.le, decide_eq_false_iff_not, not_le]
    exact h

/-! ## C1: the poller and the status banner -/

/-- C1 on the code. In a page that has the status message element and no
element with id status-banner, the constructor succeeds and leaves a Visible,
initialized session with threshold 2000 ms and last activity at 0. The poll
check at 2000 finds the threshold reached and throws at the banner lookup of
activateBlur, after the body class is set and before isBlurActive is: after the
ticks at 1000, 2000 and 3000 the session is still Visible and onActivate was
never invoked. Second, with a threshold of 5 ms in a browser with touch input,
a touchstart at 990 leaves a Visible session with last activity 990; with no
further interaction the tick at 1000 activates, the touch follow-up at 1040
deactivates, and the tick at 2000 activates again: onActivate is invoked
twice. -/
theorem C1_poller_fails_without_banner :
    (sampleNoBanner.s.isInitialized = true ∧ sampleNoBanner.s.isBlurActive = false ∧
      sampleNoBanner.s.lastActivity = 0 ∧
      sampleNoBanner.s.config.inactivityTime = JSNum.fin 2000 ∧
      statusInUse sampleNoBanner = true ∧ sampleNoBanner.page.banner = none) ∧
    thresholdReached sampleNoBanner 2000 = true ∧
    pollTick 2000 sampleNoBanner = Except.error (JSError.typeError sampleNoBannerThrown) ∧
    (runTicks [1000, 2000, 3000] sampleNoBanner).s.isBlurActive = false ∧
    activations (runTicks [1000, 2000, 3000] sampleNoBanner) = 0 ∧
    (runTicks [1000, 2000, 3000] sampleNoBanner).page.bodyBlurActive = true ∧
    (shortTouched.s.isBlurActive = false ∧ shortTouched.s.lastActivity = 990 ∧
      shortTouched.s.config.inactivityTime = JSNum.fin 5 ∧
      shortTouched.host.timeouts = [⟨2, 1040, TimeoutCb.touchCheck⟩]) ∧
    (tick 1000 shortTouched).s.isBlurActive = true ∧
    (advance 1 1040 (tick 1000 shortTouched)).s.isBlurActive = false ∧
    (tick 2000 (advance 1 1040 (tick 1000 shortTouched))).s.isBlurActive = true ∧
    activations (tick 2000 (advance 1 1040 (tick 1000 shortTouched))) = 2 :=
  ⟨by decide, by decide, rfl, by decide, by decide, by decide, by decide, by decide,
    by decide, by decide, by decide⟩

/-! ## C2: activation and deactivation are idempotent -/

/-- C2. activateBlur on an Obscured session and deactivateBlur on a Visible
session return normally with the whole state unchanged (session fields, page,
timers, callback record, console); hence activateBlur followed by activateBlur
is activateBlur once, and deactivateBlur followed by deactivateBlur is
deactivateBlur once. -/
theorem C2_activate_deactivate_idempotent (w : World) (now later : Int) :
    (w.s.isBlurActive = true → activateBlur w = Except.ok w) ∧
    (w.s.isBlurActive = false → deactivateBlur now w = Except.ok w) ∧
    (activateBlur w).bind activateBlur = activateBlur w ∧
    (deactivateBlur now w).bind (deactivateBlur later) = deactivateBlur now w := by
  refine ⟨activateBlur_of_active w, deactivateBlur_of_visible now w, ?_, ?_⟩
  · cases h : activateBlur w with
    | error e => rfl
    | ok w1 =>
      show activateBlur w1 = Except.ok w1
      exact activateBlur_of_active w1 (activateBlur_ok_isBlurActive w w1 h)
  · cases h : deactivateBlur now w with
    | error e => rfl
    | ok w1 =>
      show deactivateBlur later w1 = Except.ok w1
      exact deactivateBlur_of_visible later w1 (deactivateBlur_ok_isBlurActive now w w1 h)

/-- C2 at the sample session, Visible and Obscured. -/
theorem C2_activate_deactivate_idempotent_witness :
    activateBlur sampleObscured = Except.ok sampleObscured ∧
    deactivateBlur 700 sampleWorld = Except.ok sampleWorld ∧
    (activateBlur sampleWorld).bind activateBlur = activateBlur sampleWorld ∧
    (deactivateBlur 700 sampleObscured).bind (deactivateBlur 900)
      = deactivateBlur 700 sampleObscured :=
  ⟨(C2_activate_deactivate_idempotent sampleObscured 0 0).1 rfl,
    (C2_activate_deactivate_idempotent sampleWorld 700 0).2.1 rfl,
    (C2_activate_deactivate_idempotent sampleWorld 0 0).2.2.1,
    (C2_activate_deactivate_idempotent sampleObscured 700 900).2.2.2⟩

/-! ## C3: deactivation resets the idle clock -/

/-- C3. deactivateBlur at time t on an Obscured session (one whose banner
lookup succeeds, as it does in every session activateBlur has made Obscured)
returns normally and leaves the session Visible with lastActivity = t, and poll
ticks at times u with u - t < config.inactivityTime, with nothing in between,
change nothing: the session stays Visible and onActivate is not invoked. -/
theorem C3_deactivate_resets_idle_clock (w : World) (t : Int) (ts : List Int)
    (hobs : w.s.isBlurActive = true) (hban : bannerReady w = true)
    (hts : ∀ u ∈ ts,
      JSNum.lt (JSNum.fin ((u - t : Int) : ℚ)) w.s.config.inactivityTime = true) :
    ∃ w1 : World, deactivateBlur t w = Except.ok w1 ∧
      w1.s.isBlurActive = false ∧
      w1.s.lastActivity = t ∧
      runTicks ts w1 = w1 ∧
      (runTicks ts w1).s.isBlurActive = false := by
  refine ⟨_, deactivateBlur_of_active t w hobs hban, rfl, rfl, ?_, ?_⟩
  · apply runTicks_of_not_reached
    intro u hu
    exact JSNum.ge_false_of_lt _ _ (hts u hu)
  · rw [runTicks_of_not_reached]
    intro u hu
    exact JSNum.ge_false_of_lt _ _ (hts u hu)

/-- C3 in the scenario of the specification: threshold 2000 ms, the poller
activates at 2000, a click at 2600 deactivates, and the ticks at 3000 and 4000
(before 4600) do not activate; the tick at 5000 does. -/
theorem C3_deactivate_resets_idle_clock_witness :
    (samplePolled.s.isBlurActive = true ∧ bannerReady samplePolled = true ∧
      handleUserActivity 2600 samplePolled = deactivateBlur 2600 samplePolled ∧
      (∀ u ∈ ([3000, 4000] : List Int),
        JSNum.lt (JSNum.fin ((u - 2600 : Int) : ℚ)) samplePolled.s.config.inactivityTime
          = true)) ∧
    (∃ w1 : World, deactivateBlur 2600 samplePolled = Except.ok w1 ∧
      w1.s.isBlurActive = false ∧
      w1.s.lastActivity = 2600 ∧
      runTicks [3000, 4000] w1 = w1 ∧
      (runTicks [3000, 4000] w1).s.isBlurActive = false) ∧
    (runTicks [3000, 4000, 5000] (settle (deactivateBlur 2600 samplePolled))).s.isBlurActive
      = true :=
  ⟨⟨rfl, rfl, rfl, by decide⟩,
    C3_deactivate_resets_idle_clock samplePolled 2600 [3000, 4000] rfl rfl (by decide),
    by decide⟩

/-! ## C4: the visibility change handler and the status banner -/

/-- C4 on the code. In the initialized, Visible session of a page that has the
status message element and no element with id status-banner, at 1000 ms (below
the threshold of 2000) the visibility change handler with document.hidden true
throws at the banner lookup of activateBlur: the body class blur-active and the
status text are written, and the session is left Visible with onActivate not
invoked. -/
theorem C4_hidden_fails_without_banner :
    (sampleNoBanner.s.isInitialized = true ∧ sampleNoBanner.s.isBlurActive = false ∧
      statusInUse sampleNoBanner = true ∧ sampleNoBanner.page.banner = none ∧
      thresholdReached sampleNoBanner 1000 = false) ∧
    onVisibilityChange true 1000 sampleNoBanner
      = Except.error (JSError.typeError sampleNoBannerThrown) ∧
    (settle (onVisibilityChange true 1000 sampleNoBanner)).s.isBlurActive = false ∧
    activations (settle (onVisibilityChange true 1000 sampleNoBanner)) = 0 ∧
    (settle (onVisibilityChange true 1000 sampleNoBanner)).page.bodyBlurActive = true :=
  ⟨by decide, rfl, by decide, by decide, by decide⟩

/-! ## C5: init with a missing element -/

/-- C5, as the code has it. When the sensitive area or the overlay is not
found, init on a session that is not initialized returns normally after writing
one error to the console; it binds no listener, starts no interval or timer,
invokes no callback and leaves the page alone; isInitialized, isBlurActive,
config and lastActivity keep the values the constructor gave them, while
sensitiveArea, overlay and statusMessage hold what querySelector returned for
their selectors. -/
theorem C5_init_missing_element (w : World) (now : Int)
    (hfresh : w.s.isInitialized = false)
    (hmiss : querySelector w.page w.s.config.sensitiveSelector = none ∨
      querySelector w.page w.s.config.overlaySelector = none) :
    ∃ (w1 : World) (m : Message), init now w = Except.ok w1 ∧
      (m = Message.sensitiveNotFound w.s.config.sensitiveSelector ∨
        m = Message.overlayNotFound w.s.config.overlaySelector) ∧
      w1.host = { w.host with console := w.host.console ++ [ConsoleLine.error m] } ∧
      w1.page = w.page ∧
      w1.s = { w.s with
        sensitiveArea := querySelector w.page w.s.config.sensitiveSelector
        overlay := querySelector w.page w.s.config.overlaySelector
        statusMessage := querySelector w.page w.s.config.statusMessageSelector } ∧
      w1.s.isInitialized = false ∧ w1.s.inactivityInterval = w.s.inactivityInterval := by
  by_cases hsens : querySelector w.page w.s.config.sensitiveSelector = none
  · refine ⟨
      { s := { w.s with
          sensitiveArea := querySelector w.page w.s.config.sensitiveSelector
          overlay := querySelector w.page w.s.config.overlaySelector
          statusMessage := querySelector w.page w.s.config.statusMessageSelector }
        page := w.page
        host := { w.host with console := w.host.console ++
          [ConsoleLine.error (Message.sensitiveNotFound w.s.config.sensitiveSelector)] } },
      Message.sensitiveNotFound w.s.config.sensitiveSelector, ?_,
      Or.inl rfl, rfl, rfl, rfl, hfresh, rfl⟩
    simp [init, hfresh, hsens, logError]
  · have hov : querySelector w.page w.s.config.overlaySelector = none := by
      rcases hmiss with h | h
      · exact absurd h hsens
      · exact h
    obtain ⟨e, he⟩ := Option.ne_none_iff_exists'.mp hsens
    refine ⟨
      { s := { w.s with
          sensitiveArea := querySelector w.page w.s.config.sensitiveSelector
          overlay := querySelector w.page w.s.config.overlaySelector
          statusMessage := querySelector w.page w.s.config.statusMessageSelector }
        page := w.page
        host := { w.host with console := w.host.console ++
          [ConsoleLine.error (Message.overlayNotFound w.s.config.overlaySelector)] } },
      Message.overlayNotFound w.s.config.overlaySelector, ?_,
      Or.inr rfl, rfl, rfl, rfl, hfresh, rfl⟩
    simp [init, hfresh, he, hov, logError]

/-- C5 at the sample options in a page without overlay. -/
theorem C5_init_missing_element_witness :
    ((World.mk (initialSession sampleOptions 0) pageNoOverlay sampleHost).s.isInitialized
        = false ∧
      querySelector pageNoOverlay "#blur-overlay" = none) ∧
    ∃ (w1 : World) (m : Message),
      init 0 (World.mk (initialSession sampleOptions 0) pageNoOverlay sampleHost)
        = Except.ok w1 ∧
      w1.host = { sampleHost with console := [ConsoleLine.error m] } ∧
      w1.page = pageNoOverlay ∧
      w1.s.isInitialized = false := by
  refine ⟨⟨rfl, rfl⟩, ?_⟩
  obtain ⟨w1, m, h1, _, hh, hp, _, hi, _⟩ :=
    C5_init_missing_element (World.mk (initialSession sampleOptions 0) pageNoOverlay sampleHost)
      0 rfl (Or.inr rfl)
  exact ⟨w1, m, h1, hh, hp, hi⟩

/-- C5 as stated fails: in a page without overlay the constructor runs init,
which fails, and the fields sensitiveArea and statusMessage are no longer null,
so the session fields are not those the constructor set. -/
theorem C5_fields_not_null_counterexample :
    querySelector pageNoOverlay (mkConfig sampleOptions).overlaySelector = none ∧
    ∃ w1 : World, construct sampleOptions false 0 pageNoOverlay sampleHost = Except.ok w1 ∧
      w1.s.isInitialized = false ∧
      w1.s.sensitiveArea = some 1 ∧ w1.s.statusMessage = some 3 ∧
      w1.s ≠ initialSession sampleOptions 0 :=
  ⟨rfl, _, rfl, rfl, rfl, rfl, by decide⟩

/-! ## C6: cleanup and the pending timers -/

/-- C6 at a reachable state. After the tab was hidden and shown again the
status hide of the deactivation is pending; cleanup clears the interval and
leaves that timer pending, and it fires at 3500 ms, after cleanup. The same
holds for the touch follow-up scheduled by handleUserActivity. -/
theorem C6_cleanup_leaves_timeouts :
    sampleReturned.host.intervals = [1] ∧
    sampleReturned.host.timeouts = [⟨2, 3500, TimeoutCb.hideStatus⟩] ∧
    (cleanup sampleReturned).host.intervals = [] ∧
    (cleanup sampleReturned).host.timeouts = [⟨2, 3500, TimeoutCb.hideStatus⟩] ∧
    pendingCount (cleanup sampleReturned) = 1 ∧
    (cleanup sampleReturned).page.banner = some true ∧
    (advance 1 3500 (cleanup sampleReturned)).page.banner = some false ∧
    (cleanup (settle (handleUserActivity 1500 sampleTouch))).host.timeouts
      = [⟨2, 1550, TimeoutCb.touchCheck⟩] := by
  decide

/-! ## C7: the status hide after deactivate, activate, deactivate -/

/-- C7 on the code. The sample session (status surface in use, threshold
2000 ms, poll ticks at 2000 and 3000) is Obscured with no timer pending;
deactivateBlur runs at 1100, activateBlur at 1500 and deactivateBlur at 1900.
The banner is then shown and two hide callbacks are pending, for 3100 and
3900. The poll ticks at 2000 and 3000 change nothing. At 3100, 1200 ms after
the last deactivation showed the banner and 800 ms before 3900, the callback
of the first deactivation removes the class active from the banner and the
class blur-inactive from the body. Likewise after deactivateBlur at 1100 and
activateBlur at 1500 alone, the callback removes the banner class at 3100
while the session is Obscured. -/
theorem C7_stale_hide_fires :
    (sampleObscured.s.isBlurActive = true ∧ statusInUse sampleObscured = true ∧
      sampleObscured.host.timeouts = [] ∧
      (1100 : Int) < 1500 ∧ (1500 : Int) < 1900 ∧ (1900 : Int) < 1100 + 2000) ∧
    ((rapidSequence 1100 1900 sampleObscured).page.banner = some true ∧
      (rapidSequence 1100 1900 sampleObscured).page.bodyBlurInactive = true ∧
      (rapidSequence 1100 1900 sampleObscured).host.timeouts
        = [⟨2, 3100, TimeoutCb.hideStatus⟩, ⟨3, 3900, TimeoutCb.hideStatus⟩]) ∧
    runTicks [2000, 3000] (rapidSequence 1100 1900 sampleObscured)
      = rapidSequence 1100 1900 sampleObscured ∧
    (advance 2 3099 (rapidSequence 1100 1900 sampleObscured)).page.banner = some true ∧
    ((1900 : Int) ≤ 3100 ∧ (3100 : Int) < 1900 + 2000) ∧
    (advance 2 3100 (rapidSequence 1100 1900 sampleObscured)).page.banner = some false ∧
    (advance 2 3100 (rapidSequence 1100 1900 sampleObscured)).page.bodyBlurInactive = false ∧
    (settle (activateBlur (settle (deactivateBlur 1100 sampleObscured)))).page.banner
      = some true ∧
    runTicks [2000, 3000] (settle (activateBlur (settle (deactivateBlur 1100 sampleObscured))))
      = settle (activateBlur (settle (deactivateBlur 1100 sampleObscured))) ∧
    (advance 2 3100
      (settle (activateBlur (settle (deactivateBlur 1100 sampleObscured))))).s.isBlurActive
      = true ∧
    (advance 2 3100
      (settle (activateBlur (settle (deactivateBlur 1100 sampleObscured))))).page.banner
      = some false := by
  decide

/-! ## C8: the setters and NaN -/

/-- The state setInactivityTime builds, field by field. -/
theorem setInactivityTime_eq (seconds : JSNum) (now : Int) (w : World) :
    setInactivityTime seconds now w =
      { s := { w.s with
          config := { w.s.config with
            inactivityTime := JSNum.mul (JSNum.max (JSNum.fin 1) seconds) (JSNum.fin 1000) }
          lastActivity := now }
        page := w.page
        host := { w.host with
          console := if w.s.config.debug then
              w.host.console ++ [ConsoleLine.log (Message.inactivityTimeSet seconds)]
            else w.host.console } } := by
  by_cases hd : w.s.config.debug = true <;>
  simp [setInactivityTime, log, hd]

/-- C8, as the code has it. The listeners of the demo panel ignore an input
that parses to NaN: they return the state unchanged and call no setter. The
setters do not test their argument: given NaN, setInactivityTime stores NaN in
config.inactivityTime and sets lastActivity to now, and setBlurIntensity, when
the overlay is present, returns normally and stores NaN in config.blurIntensity,
leaving the other session fields as they were. -/
theorem C8_nan_reaches_config (w : World) (now : Int) :
    applyTimerClick JSNum.nan now w = w ∧
    applyBlurClick JSNum.nan w = Except.ok w ∧
    (setInactivityTime JSNum.nan now w).s =
      { w.s with
        config := { w.s.config with inactivityTime := JSNum.nan }
        lastActivity := now } ∧
    (w.s.overlay.isSome = true →
      ∃ w1 : World, setBlurIntensity JSNum.nan w = Except.ok w1 ∧
        w1.s = { w.s with config := { w.s.config with blurIntensity := JSNum.nan } }) := by
  refine ⟨rfl, rfl, ?_, ?_⟩
  · rw [setInactivityTime_eq]
    rfl
  · intro hov
    obtain ⟨e, he⟩ := Option.isSome_iff_exists.mp hov
    have hrun : setBlurIntensity JSNum.nan w = Except.ok
        (log (Message.blurIntensitySet JSNum.nan)
          { w with s := { w.s with config := { w.s.config with
              blurIntensity := JSNum.nan } } }) := by
      simp [setBlurIntensity, he, JSNum.max, JSNum.min, assignBlur]
    exact ⟨_, hrun, by rw [log_s]⟩

/-- C8 at the sample session. -/
theorem C8_nan_reaches_config_witness :
    sampleWorld.s.overlay.isSome = true ∧
    ∃ w1 : World, setBlurIntensity JSNum.nan sampleWorld = Except.ok w1 ∧
      w1.s = { sampleWorld.s with
        config := { sampleWorld.s.config with blurIntensity := JSNum.nan } } :=
  ⟨rfl, (C8_nan_reaches_config sampleWorld 0).2.2.2 rfl⟩

/-- C8 as stated fails: at the sample session (threshold 2000 ms, intensity
10) the setters called with NaN replace both values by NaN. -/
theorem C8_nan_not_ignored_counterexample :
    sampleWorld.s.config.inactivityTime = JSNum.fin 2000 ∧
    (setInactivityTime JSNum.nan 700 sampleWorld).s.config.inactivityTime = JSNum.nan ∧
    sampleWorld.s.config.blurIntensity = JSNum.fin 10 ∧
    ∃ w1 : World, setBlurIntensity JSNum.nan sampleWorld = Except.ok w1 ∧
      w1.s.config.blurIntensity = JSNum.nan :=
  ⟨rfl, rfl, rfl, _, rfl, rfl⟩

/-! ## C9: setInactivityTime clamps and resets the idle clock -/

theorem JSNum.max_one_of_le (s : JSNum) (h : JSNum.le s (JSNum.fin 1) = true) :
    JSNum.max (JSNum.fin 1) s = JSNum.fin 1 := by
  cases s with
  | nan => simp [JSNum.le] at h
  | negInf => rfl
  | posInf => simp [JSNum.le] at h
  | fin q =>
    simp only [JSNum.le, decide_eq_true_eq] at h
    by_cases h1 : (1 : ℚ) ≤ q
    · have : q = 1 := le_antisymm h h1
      simp [JSNum.max, this]
    · simp [JSNum.max, h1]

theorem JSNum.max_one_of_ge (q : ℚ) (h : 1 ≤ q) :
    JSNum.max (JSNum.fin 1) (JSNum.fin q) = JSNum.fin q := by
  simp [JSNum.max, h]

theorem JSNum.mul_one_1000 : JSNum.mul (JSNum.fin 1) (JSNum.fin 1000) = JSNum.fin 1000 := by
  show JSNum.roundDouble (1 * 1000) = JSNum.fin 1000
  rw [one_mul]
  exact roundDouble_1000

/-- The threshold setInactivityTime computes is at least 1000. -/
theorem JSNum.le_mul_max_one (s : JSNum) (h : s.isNaN = false) :
    JSNum.le (JSNum.fin 1000) (JSNum.mul (JSNum.max (JSNum.fin 1) s) (JSNum.fin 1000))
      = true := by
  cases s with
  | nan => simp [JSNum.isNaN] at h
  | negInf =>
    show JSNum.le (JSNum.fin 1000) (JSNum.mul (JSNum.fin 1) (JSNum.fin 1000)) = true
    rw [JSNum.mul_one_1000]
    simp [JSNum.le]
  | posInf =>
    show JSNum.le (JSNum.fin 1000) (JSNum.infTimes true 1000) = true
    simp [JSNum.infTimes, JSNum.le]
  | fin q =>
    by_cases h1 : (1 : ℚ) ≤ q
    · rw [JSNum.max_one_of_ge q h1]
      show JSNum.le (JSNum.fin 1000) (JSNum.roundDouble (q * 1000)) = true
      exact le_roundDouble_of_le _ (by linarith)
    · rw [JSNum.max_one_of_le (JSNum.fin q)
        (by simp only [JSNum.le, decide_eq_true_eq]; linarith), JSNum.mul_one_1000]
      simp [JSNum.le]

theorem JSNum.ge_zero_false_of_le (T : JSNum) (h : JSNum.le (JSNum.fin 1000) T = true) :
    JSNum.ge (JSNum.fin 0) T = false := by
  cases T with
  | nan => rfl
  | negInf => simp [JSNum.le] at h
  | posInf => rfl
  | fin q =>
    simp only [JSNum.le, decide_eq_true_eq] at h
    simp only [JSNum.ge, JSNum.le, decide_eq_false_iff_not, not_le]
    linarith

/-- C9. For a number s that is not NaN, setInactivityTime(s) at time now stores
the double product max(1, s) * 1000 in config.inactivityTime, sets lastActivity
to now and leaves every other field of the session, the page, the timers, the
listeners and the callback record as they were (the console gains a line in
debug mode); the state returned is that of the receiver. The stored value is
1000 for every s <= 1, so for 0, -5 and every s <= 0; it is n * 1000 for every
integer n >= 1 with n * 1000 below 2 ^ 53; it is the exact product whenever that
is a double; it is Infinity for Infinity; and it is never below 1000, so a
poll tick at the same time right after the call changes nothing. -/
theorem C9_setInactivityTime_clamps (w : World) (now : Int) (s : JSNum)
    (hnum : s.isNaN = false) :
    (setInactivityTime s now w).s =
      { w.s with
        config := { w.s.config with
          inactivityTime := JSNum.mul (JSNum.max (JSNum.fin 1) s) (JSNum.fin 1000) }
        lastActivity := now } ∧
    (JSNum.le s (JSNum.fin 1) = true →
      (setInactivityTime s now w).s.config.inactivityTime = JSNum.fin 1000) ∧
    (∀ n : ℤ, 1 ≤ n → n * 1000 < 2 ^ 53 → s = JSNum.fin (n : ℚ) →
      (setInactivityTime s now w).s.config.inactivityTime = JSNum.fin ((n * 1000 : ℤ) : ℚ)) ∧
    (∀ (q : ℚ) (k : ℤ), s = JSNum.fin q → 1 ≤ q →
      q * 1000 = (k : ℚ) * JSNum.ulp (q * 1000) → q * 1000 < (2 : ℚ) ^ (1024 : ℕ) →
      (setInactivityTime s now w).s.config.inactivityTime = JSNum.fin (q * 1000)) ∧
    (s = JSNum.posInf →
      (setInactivityTime s now w).s.config.inactivityTime = JSNum.posInf) ∧
    JSNum.le (JSNum.fin 1000) (setInactivityTime s now w).s.config.inactivityTime = true ∧
    (setInactivityTime s now w).page = w.page ∧
    (setInactivityTime s now w).host =
      { w.host with
        console := if w.s.config.debug then
            w.host.console ++ [ConsoleLine.log (Message.inactivityTimeSet s)]
          else w.host.console } ∧
    pollTick now (setInactivityTime s now w) = Except.ok (setInactivityTime s now w) := by
  have hT : (setInactivityTime s now w).s.config.inactivityTime =
      JSNum.mul (JSNum.max (JSNum.fin 1) s) (JSNum.fin 1000) := by
    rw [setInactivityTime_eq]
  have hL : (setInactivityTime s now w).s.lastActivity = now := by
    rw [setInactivityTime_eq]
  have hge : JSNum.le (JSNum.fin 1000) (setInactivityTime s now w).s.config.inactivityTime
      = true := by
    rw [hT]
    exact JSNum.le_mul_max_one s hnum
  refine ⟨by rw [setInactivityTime_eq], ?_, ?_, ?_, ?_, hge, by rw [setInactivityTime_eq],
    by rw [setInactivityTime_eq], ?_⟩
  · intro hle
    rw [hT, JSNum.max_one_of_le s hle, JSNum.mul_one_1000]
  · intro n hn1 hn2 hs
    have h1 : (1 : ℚ) ≤ (n : ℚ) := by exact_mod_cast hn1
    rw [hT, hs, JSNum.max_one_of_ge _ h1]
    show JSNum.roundDouble ((n : ℚ) * 1000) = _
    have hcast : (n : ℚ) * 1000 = ((n * 1000 : ℤ) : ℚ) := by push_cast; ring
    rw [hcast]
    exact roundDouble_int (n * 1000) (by omega) hn2
  · intro q k hs h1 hk hhi
    rw [hT, hs, JSNum.max_one_of_ge _ h1]
    show JSNum.roundDouble (q * 1000) = _
    have hpos : (0 : ℚ) < 2 ^ (1024 : ℕ) := by positivity
    exact roundDouble_of_grid (q * 1000) k hk (by linarith) hhi
  · intro hs
    rw [hT, hs]
    show JSNum.infTimes true 1000 = JSNum.posInf
    simp [JSNum.infTimes]
  · have hz : JSNum.ge (JSNum.fin (((now - (setInactivityTime s now w).s.lastActivity : ℤ)) : ℚ))
        (setInactivityTime s now w).s.config.inactivityTime = false := by
      rw [hL]
      have h0 : (((now - now : ℤ)) : ℚ) = 0 := by simp
      rw [h0]
      exact JSNum.ge_zero_false_of_le _ hge
    simp only [pollTick, hz, Bool.false_and, Bool.false_eq_true, if_false]

/-- C9 at the sample session with the argument -5 at time 700. -/
theorem C9_setInactivityTime_clamps_witness :
    (JSNum.fin (-5)).isNaN = false ∧
    (setInactivityTime (JSNum.fin (-5)) 700 sampleWorld).s.config.inactivityTime
      = JSNum.fin 1000 ∧
    (setInactivityTime (JSNum.fin (-5)) 700 sampleWorld).s.lastActivity = 700 ∧
    pollTick 700 (setInactivityTime (JSNum.fin (-5)) 700 sampleWorld)
      = Except.ok (setInactivityTime (JSNum.fin (-5)) 700 sampleWorld) :=
  ⟨rfl,
    (C9_setInactivityTime_clamps sampleWorld 700 (JSNum.fin (-5)) rfl).2.1 (by decide),
    congrArg Session.lastActivity
      (C9_setInactivityTime_clamps sampleWorld 700 (JSNum.fin (-5)) rfl).1,
    (C9_setInactivityTime_clamps sampleWorld 700 (JSNum.fin (-5)) rfl).2.2.2.2.2.2.2.2⟩

/-! ## C10: setBlurIntensity clamps into 1 to 20 -/

theorem JSNum.clamp_eq (p : JSNum) (h : p.isNaN = false) :
    JSNum.max (JSNum.fin 1) (JSNum.min (JSNum.fin 20) p) = JSNum.fin (clampTo 1 20 p) := by
  cases p with
  | nan => simp [JSNum.isNaN] at h
  | negInf => rfl
  | posInf =>
    show JSNum.fin (if (1 : ℚ) ≤ 20 then 20 else 1) = JSNum.fin 20
    norm_num
  | fin q =>
    show JSNum.fin (if (1 : ℚ) ≤ (if (20 : ℚ) ≤ q then 20 else q)
      then (if (20 : ℚ) ≤ q then 20 else q) else 1) = JSNum.fin (Max.max 1 (Min.min 20 q))
    rw [max_def, min_def]

theorem clampTo_bounds (p : JSNum) : 1 ≤ clampTo 1 20 p ∧ clampTo 1 20 p ≤ 20 := by
  cases p with
  | nan => simp [clampTo]
  | negInf => simp [clampTo]
  | posInf => simp [clampTo]
  | fin q =>
    exact ⟨le_max_left _ _, max_le (by norm_num) (min_le_left _ _)⟩

theorem clampTo_idem (p : JSNum) :
    clampTo 1 20 (JSNum.fin (clampTo 1 20 p)) = clampTo 1 20 p := by
  have h := clampTo_bounds p
  show Max.max 1 (Min.min 20 (clampTo 1 20 p)) = clampTo 1 20 p
  rw [min_eq_right h.2, max_eq_right h.1]

/-- The state setBlurIntensity builds when the overlay is there and the
argument is not NaN, field by field. -/
theorem setBlurIntensity_eq (p : JSNum) (w : World) (hnum : p.isNaN = false)
    (hov : w.s.overlay.isSome = true) :
    setBlurIntensity p w = Except.ok
      { s := { w.s with config := { w.s.config with
            blurIntensity := JSNum.fin (clampTo 1 20 p) } }
        page := { w.page with
          backdropFilter := some (clampTo 1 20 p)
          webkitBackdropFilter := some (clampTo 1 20 p) }
        host := { w.host with
          console := if w.s.config.debug then
              w.host.console ++
                [ConsoleLine.log (Message.blurIntensitySet (JSNum.fin (clampTo 1 20 p)))]
            else w.host.console } } := by
  obtain ⟨e, he⟩ := Option.isSome_iff_exists.mp hov
  by_cases hd : w.s.config.debug = true <;>
  simp [setBlurIntensity, JSNum.clamp_eq p hnum, assignBlur, log, he, hd]

/-- C10. With the overlay present and a number p that is not NaN,
setBlurIntensity(p) returns normally, stores p clamped into 1 to 20 in
config.blurIntensity, writes that value to both blur filter properties of the
overlay, and leaves isBlurActive, lastActivity, config.inactivityTime and every
other session field as they were; the state returned is that of the receiver;
calling it again with the stored value leaves session and page as they are. -/
theorem C10_setBlurIntensity_clamps (w : World) (p : JSNum)
    (hnum : p.isNaN = false) (hov : w.s.overlay.isSome = true) :
    ∃ w1 : World, setBlurIntensity p w = Except.ok w1 ∧
      1 ≤ clampTo 1 20 p ∧ clampTo 1 20 p ≤ 20 ∧
      (∀ q : ℚ, p = JSNum.fin q → clampTo 1 20 p = Max.max 1 (Min.min 20 q)) ∧
      w1.s = { w.s with config := { w.s.config with
          blurIntensity := JSNum.fin (clampTo 1 20 p) } } ∧
      w1.page = { w.page with
          backdropFilter := some (clampTo 1 20 p)
          webkitBackdropFilter := some (clampTo 1 20 p) } ∧
      w1.host.intervals = w.host.intervals ∧ w1.host.timeouts = w.host.timeouts ∧
      w1.host.calls = w.host.calls ∧
      ∃ w2 : World, setBlurIntensity w1.s.config.blurIntensity w1 = Except.ok w2 ∧
        w2.s = w1.s ∧ w2.page = w1.page := by
  refine ⟨_, setBlurIntensity_eq p w hnum hov, (clampTo_bounds p).1, (clampTo_bounds p).2,
    ?_, rfl, rfl, rfl, rfl, rfl, ?_⟩
  · intro q hq
    rw [hq]
    rfl
  · refine ⟨_, setBlurIntensity_eq _ _ rfl hov, ?_, ?_⟩
    · simp [clampTo_idem]
    · simp [clampTo_idem]

/-- C10 at the sample session with the arguments 50 and 0. -/
theorem C10_setBlurIntensity_clamps_witness :
    ((JSNum.fin 50).isNaN = false ∧ sampleWorld.s.overlay.isSome = true) ∧
    (∃ w1 : World, setBlurIntensity (JSNum.fin 50) sampleWorld = Except.ok w1 ∧
      w1.s.config.blurIntensity = JSNum.fin 20 ∧ w1.page.backdropFilter = some 20) ∧
    (∃ w1 : World, setBlurIntensity (JSNum.fin 0) sampleWorld = Except.ok w1 ∧
      w1.s.config.blurIntensity = JSNum.fin 1 ∧ w1.page.backdropFilter = some 1) := by
  refine ⟨⟨rfl, rfl⟩, ?_, ?_⟩
  · obtain ⟨w1, h1, _, _, _, hs, hp, _⟩ :=
      C10_setBlurIntensity_clamps sampleWorld (JSNum.fin 50) rfl rfl
    have hc : clampTo 1 20 (JSNum.fin 50) = 20 := by norm_num [clampTo]
    exact ⟨w1, h1, by rw [hs, hc], by rw [hp, hc]⟩
  · obtain ⟨w1, h1, _, _, _, hs, hp, _⟩ :=
      C10_setBlurIntensity_clamps sampleWorld (JSNum.fin 0) rfl rfl
    have hc : clampTo 1 20 (JSNum.fin 0) = 1 := by norm_num [clampTo]
    exact ⟨w1, h1, by rw [hs, hc], by rw [hp, hc]⟩

end BlurSession
